import Mathlib

/-
Verification development for the NVM importer
(src/nvm_import/import_nvm_op.py).

The geometric core of the importer is embedded shallowly: mathutils
matrices and vectors become matrices and vectors over the rationals
(the Python code computes with IEEE doubles; all the claims below are
about the exact algebra, which the rationals model faithfully, and the
field-of-view angles live over the reals), in-place mutation of a local
matrix becomes an explicit chain of functional updates mirroring the
Python statements one for one.
-/

/-- One statement of invert_y_and_z_axis on a matrix:
output_matrix_or_vector[k] is replaced by its negation (negating row k). -/
def negRow (m : Matrix (Fin 3) (Fin 3) ℚ) (k : ℕ) : Matrix (Fin 3) (Fin 3) ℚ :=
  fun i j => if (i : ℕ) = k then -(m i j) else m i j

/-- One statement of invert_y_and_z_axis on a vector:
component k is replaced by its negation. -/
def negComp (v : Fin 3 → ℚ) (k : ℕ) : Fin 3 → ℚ :=
  fun i => if (i : ℕ) = k then -(v i) else v i

/-- invert_y_and_z_axis (import_nvm_op.py lines 24-33) applied to a 3x3
matrix: copy the input, negate entry 1, negate entry 2 (rows, for a
matrix). -/
def invert_y_and_z_axis_mat (input_m : Matrix (Fin 3) (Fin 3) ℚ) :
    Matrix (Fin 3) (Fin 3) ℚ :=
  negRow (negRow input_m 1) 2

/-- invert_y_and_z_axis applied to a 3-vector: copy the input, negate
component 1, negate component 2. -/
def invert_y_and_z_axis_vec (input_v : Fin 3 → ℚ) : Fin 3 → ℚ :=
  negComp (negComp input_v 1) 2

/-- Vector(translation_vec).to_4d(): append the homogeneous coordinate 1
(import_nvm_op.py line 10). -/
def to4d (v : Fin 3 → ℚ) : Fin 4 → ℚ :=
  fun i => if h : (i : ℕ) < 3 then v ⟨i, h⟩ else 1

/-- camera_rotation[row][0:3] = rotation[row] (import_nvm_op.py line 13):
overwrite columns 0..2 of one row of a 4x4 matrix with a 3-vector. -/
def setRowCols (m : Matrix (Fin 4) (Fin 4) ℚ) (row : ℕ) (r : Fin 3 → ℚ) :
    Matrix (Fin 4) (Fin 4) ℚ :=
  fun i j =>
    if (i : ℕ) = row then
      (if h : (j : ℕ) < 3 then r ⟨j, h⟩ else m i j)
    else m i j

/-- camera_rotation.col[3] = camera_center (import_nvm_op.py line 21):
overwrite column 3 of a 4x4 matrix. -/
def setCol3 (m : Matrix (Fin 4) (Fin 4) ℚ) (c : Fin 4 → ℚ) :
    Matrix (Fin 4) (Fin 4) ℚ :=
  fun i j => if (j : ℕ) = 3 then c i else m i j

/-- get_world_matrix_from_translation_vec (import_nvm_op.py lines 9-22),
statement for statement: embed the 3x3 rotation into the 4x4 identity,
transpose it in place, compute camera_center = -(camera_rotation * t),
set its homogeneous coordinate to 1, and write it into column 3. -/
def get_world_matrix_from_translation_vec (translation_vec : Fin 3 → ℚ)
    (r : Matrix (Fin 3) (Fin 3) ℚ) : Matrix (Fin 4) (Fin 4) ℚ :=
  let t := to4d translation_vec
  let cr0 : Matrix (Fin 4) (Fin 4) ℚ :=
    setRowCols (setRowCols (setRowCols 1 0 (fun j => r 0 j)) 1 (fun j => r 1 j))
      2 (fun j => r 2 j)
  let cr := cr0.transpose
  let cc0 : Fin 4 → ℚ := fun i => -(cr.mulVec t i)
  let cc : Fin 4 → ℚ := fun i => if (i : ℕ) = 3 then 1 else cc0 i
  setCol3 cr cc

/-- Camera record. Modelled from the spec: the Camera class itself is not
under src/ (only its consumer add_cameras is); its fields and accessors
are taken from the data model of the spec and from the attribute reads in
add_cameras (file_name, calibration_mat with the focal length at entry
(0,0), get_rotation_mat, get_translation_vec, width, height,
radial_distortion). width and height are absent until resolved. -/
structure Camera where
  file_name : String
  calibration_mat : Matrix (Fin 3) (Fin 3) ℚ
  rotation_mat : Matrix (Fin 3) (Fin 3) ℚ
  translation_vec : Fin 3 → ℚ
  radial_distortion : ℚ
  width : Option ℚ
  height : Option ℚ

/-- Modelled from the spec: accessor returning the stored rotation matrix
(called at import_nvm_op.py line 168). -/
def Camera.get_rotation_mat (c : Camera) : Matrix (Fin 3) (Fin 3) ℚ :=
  c.rotation_mat

/-- Modelled from the spec: accessor returning the stored
translation/center vector (called at import_nvm_op.py line 167). -/
def Camera.get_translation_vec (c : Camera) : Fin 3 → ℚ :=
  c.translation_vec

/-- focal_length = camera.calibration_mat[0][0]
(import_nvm_op.py line 159). -/
def Camera.focal_length (c : Camera) : ℚ :=
  c.calibration_mat 0 0

/-- The world matrix assigned to the camera object in add_cameras
(import_nvm_op.py lines 167-174): flip the rotation matrix and the
translation vector with invert_y_and_z_axis, then call
get_world_matrix_from_translation_vec on the flipped pair. -/
def Camera.world_matrix (cam : Camera) : Matrix (Fin 4) (Fin 4) ℚ :=
  get_world_matrix_from_translation_vec
    (invert_y_and_z_axis_vec cam.get_translation_vec)
    (invert_y_and_z_axis_mat cam.get_rotation_mat)

/-- Upper-left 3x3 block of a 4x4 matrix. -/
def upper_left_3x3 (m : Matrix (Fin 4) (Fin 4) ℚ) :
    Matrix (Fin 3) (Fin 3) ℚ :=
  fun i j => m (Fin.castSucc i) (Fin.castSucc j)

/-- The world-space camera position -R^T * t of a camera whose stored
rotation R is world-to-camera and whose stored vector t is a translation:
this is exactly the quantity the source computes at import_nvm_op.py
line 17 and comments as the camera position in world coordinates. -/
def camera_position (cam : Camera) : Fin 3 → ℚ :=
  fun i => -(cam.rotation_mat.transpose.mulVec cam.translation_vec i)

/-- The 180-degree rotation about axis 0, diag(1,-1,-1). -/
def rot180AboutX : Matrix (Fin 3) (Fin 3) ℚ :=
  Matrix.of ![![1, 0, 0], ![0, -1, 0], ![0, 0, -1]]

/-- Failure modes of the field-of-view computation in add_cameras:
the assert at import_nvm_op.py line 152 (width or height unset) and the
float division by zero at lines 163-164 (focal_length * 2.0 equal to 0). -/
inductive FovFailure where
  | assertionError
  | zeroDivisionError
deriving DecidableEq

/-- One field-of-view angle as computed at import_nvm_op.py lines 163-164:
math.atan(dim / (focal_length * 2.0)) * 2.0. -/
noncomputable def fovAngle (dim focal_length : ℝ) : ℝ :=
  Real.arctan (dim / (focal_length * 2)) * 2

/-- The field-of-view computation of add_cameras (import_nvm_op.py lines
152-164): assert that width and height are resolved, read the focal
length from calibration_mat[0][0], and compute both angles; a zero
divisor raises ZeroDivisionError in Python. -/
noncomputable def field_of_view (camera : Camera) :
    Except FovFailure (ℝ × ℝ) :=
  match camera.width, camera.height with
  | some w, some h =>
      if camera.calibration_mat 0 0 * 2 = 0 then
        Except.error FovFailure.zeroDivisionError
      else
        Except.ok (fovAngle (w : ℝ) ((camera.calibration_mat 0 0 : ℚ) : ℝ),
                   fovAngle (h : ℝ) ((camera.calibration_mat 0 0 : ℚ) : ℝ))
  | _, _ => Except.error FovFailure.assertionError

/-- Modelled from the spec: a sparse reconstruction point (section 3 of
the spec): world coordinate, 0-255 color, and the view list of
(camera index, feature index) pairs. The Point class is not under src/. -/
structure Point where
  coord : Fin 3 → ℚ
  color : Fin 3 → ℤ
  view_list : List (ℤ × ℤ)

/-- Modelled from the spec: one lexed whitespace-delimited token of an
NVM file (section 6: ASCII, whitespace/newline-delimited tokens).
A token that parses as a number carries its value, any other token its
text; a str token where a number is expected is the non-numeric
token and yields a FormatError. -/
inductive NvmTok where
  | str (s : String)
  | num (q : ℚ)

/-- Modelled from the spec: the FormatError taxonomy of section 7
(wrong header, wrong token count in a camera record, degenerate
quaternion, truncated or malformed point record). -/
inductive FormatError where
  | badHeader
  | badCameraRecord
  | degenerateQuaternion
  | badPointRecord
deriving DecidableEq

/-- Read one numeric token. -/
def readQ : List NvmTok → Option (ℚ × List NvmTok)
  | NvmTok.num q :: rest => some (q, rest)
  | _ => none

/-- Read one integer token (a numeric token with denominator 1). -/
def readZ : List NvmTok → Option (ℤ × List NvmTok)
  | NvmTok.num q :: rest => if q.den = 1 then some (q.num, rest) else none
  | _ => none

/-- Read n numeric tokens. -/
def readQs : ℕ → List NvmTok → Option (List ℚ × List NvmTok)
  | 0, toks => some ([], toks)
  | n + 1, toks => do
    let (q, r1) ← readQ toks
    let (qs, r2) ← readQs n r1
    some (q :: qs, r2)

/-- Modelled from the spec (section 4.1 step 4): the standard
normalized-quaternion-to-matrix formula; the normalization divides every
entry by the squared norm, so the formula is rational in w, x, y, z. -/
def quaternion_to_rotation_mat (w x y z : ℚ) : Matrix (Fin 3) (Fin 3) ℚ :=
  let n := w * w + x * x + y * y + z * z
  Matrix.of
    ![![1 - 2 * (y * y + z * z) / n, 2 * (x * y - z * w) / n,
        2 * (x * z + y * w) / n],
      ![2 * (x * y + z * w) / n, 1 - 2 * (x * x + z * z) / n,
        2 * (y * z - x * w) / n],
      ![2 * (x * z - y * w) / n, 2 * (y * z + x * w) / n,
        1 - 2 * (x * x + y * y) / n]]

/-- Modelled from the spec (section 4.1 step 3): one camera record is the
filename token followed by the numeric fields focal length, quaternion
(4 values), camera center (3 values), one distortion coefficient and a
reserved value; a record with the wrong token count or a zero-norm
quaternion is a FormatError. -/
def readCamera : List NvmTok → Except FormatError (Camera × List NvmTok)
  | NvmTok.str fname :: rest =>
    match readQs 10 rest with
    | some ([f, qw, qx, qy, qz, cx, cy, cz, dist, _rsvd], r2) =>
      if qw * qw + qx * qx + qy * qy + qz * qz = 0 then
        Except.error FormatError.degenerateQuaternion
      else
        Except.ok
          ({ file_name := fname,
             calibration_mat := Matrix.of ![![f, 0, 0], ![0, f, 0], ![0, 0, 1]],
             rotation_mat := quaternion_to_rotation_mat qw qx qy qz,
             translation_vec := ![cx, cy, cz],
             radial_distortion := dist,
             width := none,
             height := none }, r2)
    | _ => Except.error FormatError.badCameraRecord
  | _ => Except.error FormatError.badCameraRecord

/-- Read n camera records. -/
def readCameras : ℕ → List NvmTok → Except FormatError (List Camera × List NvmTok)
  | 0, toks => Except.ok ([], toks)
  | n + 1, toks => do
    let (c, r1) ← readCamera toks
    let (cs, r2) ← readCameras n r1
    Except.ok (c :: cs, r2)

/-- Read n (camera index, feature index) pairs of a view list. -/
def readViews : ℕ → List NvmTok → Option (List (ℤ × ℤ) × List NvmTok)
  | 0, toks => some ([], toks)
  | n + 1, toks => do
    let (a, r1) ← readZ toks
    let (b, r2) ← readZ r1
    let (vs, r3) ← readViews n r2
    some ((a, b) :: vs, r3)

/-- Modelled from the spec (section 4.1 step 5): one point record is
x y z r g b viewCount followed by viewCount (camera index, feature index)
pairs; the length of the trailing group is driven by viewCount. -/
def readPointAux (toks : List NvmTok) : Option (Point × List NvmTok) := do
  let (cs, r1) ← readQs 3 toks
  let (r, r2) ← readZ r1
  let (g, r3) ← readZ r2
  let (b, r4) ← readZ r3
  let (vc, r5) ← readZ r4
  if vc < 0 then none
  else
    let (views, r6) ← readViews vc.toNat r5
    match cs with
    | [x, y, z] =>
      some ({ coord := ![x, y, z], color := ![r, g, b], view_list := views }, r6)
    | _ => none

/-- A malformed or truncated point record is a FormatError. -/
def readPoint (toks : List NvmTok) : Except FormatError (Point × List NvmTok) :=
  match readPointAux toks with
  | some res => Except.ok res
  | none => Except.error FormatError.badPointRecord

/-- Read n point records. -/
def readPoints : ℕ → List NvmTok → Except FormatError (List Point × List NvmTok)
  | 0, toks => Except.ok ([], toks)
  | n + 1, toks => do
    let (p, r1) ← readPoint toks
    let (ps, r2) ← readPoints n r1
    Except.ok (p :: ps, r2)

/-- Read a nonnegative integer count. -/
def readCount (toks : List NvmTok) (e : FormatError) :
    Except FormatError (ℕ × List NvmTok) :=
  match readZ toks with
  | some (n, rest) => if n < 0 then Except.error e else Except.ok (n.toNat, rest)
  | none => Except.error e

/-- The characters of the NVM_V3 signature. -/
def nvm_signature_chars : List Char := ("NVM_V3").data

/-- Modelled from the spec (section 4.1 step 1): the header is recognized
when the first token is a non-numeric token starting with the NVM_V3
signature. -/
def has_nvm_signature (toks : List NvmTok) : Bool :=
  match toks with
  | NvmTok.str h :: _ => nvm_signature_chars.isPrefixOf h.data
  | _ => false

/-- Modelled from the spec: NVMFileHandler.parse_nvm_file is not under
src/ (only its caller, ImportNVM.execute, is). Following section 4.1:
check the NVM_V3 signature (FormatError if absent), read the camera
count and that many camera records, read the point count and that many
point records, and stop after the first model, ignoring any trailing
sections. Any FormatError aborts the parse with no partial result (the
Except carries either both complete lists or an error). The optional
fixed-calibration header annotation of step 2 is outside this model,
which covers the plain NVM_V3 layout. -/
def parse_nvm_file (toks : List NvmTok) :
    Except FormatError (List Camera × List Point) :=
  match toks with
  | NvmTok.str h :: rest =>
    if nvm_signature_chars.isPrefixOf h.data then do
      let (n, r1) ← readCount rest FormatError.badCameraRecord
      let (cams, r2) ← readCameras n r1
      let (m, r3) ← readCount r2 FormatError.badPointRecord
      let (pts, _r4) ← readPoints m r3
      Except.ok (cams, pts)
    else Except.error FormatError.badHeader
  | _ => Except.error FormatError.badHeader

/-- A mathutils value living on the Python heap: a 3x3 or 4x4 matrix or a
3- or 4-vector. -/
inductive MVal where
  | mat3 (m : Matrix (Fin 3) (Fin 3) ℚ)
  | mat4 (m : Matrix (Fin 4) (Fin 4) ℚ)
  | vec3 (v : Fin 3 → ℚ)
  | vec4 (v : Fin 4 → ℚ)

/-- The Python heap: a map from references to mathutils values. -/
abbrev Store := ℕ → MVal

/-- Writing one heap cell. -/
def Store.set (s : Store) (r : ℕ) (x : MVal) : Store :=
  fun i => if i = r then x else s i

/-- Reading a heap cell as a 3-vector (junk on a type mismatch, which
Python would raise on; the theorems assume well-typed cells). -/
def MVal.asVec3 : MVal → (Fin 3 → ℚ)
  | MVal.vec3 v => v
  | _ => fun _ => 0

/-- Reading a heap cell as a 4-vector. -/
def MVal.asVec4 : MVal → (Fin 4 → ℚ)
  | MVal.vec4 v => v
  | _ => fun _ => 0

/-- Reading a heap cell as a 3x3 matrix. -/
def MVal.asMat3 : MVal → Matrix (Fin 3) (Fin 3) ℚ
  | MVal.mat3 m => m
  | _ => fun _ _ => 0

/-- Reading a heap cell as a 4x4 matrix. -/
def MVal.asMat4 : MVal → Matrix (Fin 4) (Fin 4) ℚ
  | MVal.mat4 m => m
  | _ => fun _ _ => 0

/-- x[k] = -x[k] on a mathutils value: negates row k of a matrix or
component k of a vector, as the subscript assignments in
invert_y_and_z_axis do. -/
def MVal.negItem : MVal → ℕ → MVal
  | MVal.mat3 m, k => MVal.mat3 (negRow m k)
  | MVal.mat4 m, k => MVal.mat4 (fun i j => if (i : ℕ) = k then -(m i j) else m i j)
  | MVal.vec3 v, k => MVal.vec3 (negComp v k)
  | MVal.vec4 v, k => MVal.vec4 (fun i => if (i : ℕ) = k then -(v i) else v i)

/-- invert_y_and_z_axis (import_nvm_op.py lines 24-33) run on the heap:
the input lives at ref, fresh references are allocated from next upward.
output = input.copy() allocates a fresh cell; the two subscript
assignments mutate that fresh cell only. Returns the heap, the reference
of the result, and the new allocation counter. -/
def invert_y_and_z_axis_heap (s : Store) (next ref : ℕ) :
    Store × ℕ × ℕ :=
  let s1 := s.set next (s ref)
  let s2 := s1.set next ((s1 next).negItem 1)
  let s3 := s2.set next ((s2 next).negItem 2)
  (s3, next, next + 1)

/-- get_world_matrix_from_translation_vec (import_nvm_op.py lines 9-22)
run on the heap, statement for statement: the translation vector lives at
tRef, the rotation matrix at rRef, fresh references are allocated from
next upward. Vector(...).to_4d() and Matrix() allocate; the row
assignments, the in-place transpose, camera_center[3] = 1.0 and
col[3] = camera_center mutate only cells allocated here;
camera_rotation.copy() allocates the returned matrix. -/
def get_world_matrix_heap (s : Store) (next tRef rRef : ℕ) :
    Store × ℕ × ℕ :=
  let s1 := s.set next (MVal.vec4 (to4d ((s tRef).asVec3)))
  let tR := next
  let s2 := s1.set (next + 1) (MVal.mat4 1)
  let crR := next + 1
  let s3 := s2.set crR
    (MVal.mat4 (setRowCols ((s2 crR).asMat4) 0 (fun j => (s2 rRef).asMat3 0 j)))
  let s4 := s3.set crR
    (MVal.mat4 (setRowCols ((s3 crR).asMat4) 1 (fun j => (s3 rRef).asMat3 1 j)))
  let s5 := s4.set crR
    (MVal.mat4 (setRowCols ((s4 crR).asMat4) 2 (fun j => (s4 rRef).asMat3 2 j)))
  let s6 := s5.set crR (MVal.mat4 ((s5 crR).asMat4.transpose))
  let s7 := s6.set (next + 2)
    (MVal.vec4 (fun i => -((s6 crR).asMat4.mulVec ((s6 tR).asVec4) i)))
  let ccR := next + 2
  let s8 := s7.set ccR
    (MVal.vec4 (fun i => if (i : ℕ) = 3 then 1 else (s7 ccR).asVec4 i))
  let s9 := s8.set (next + 3) (s8 crR)
  let crR2 := next + 3
  let s10 := s9.set crR2
    (MVal.mat4 (setCol3 ((s9 crR2).asMat4) ((s9 ccR).asVec4)))
  (s10, crR2, next + 4)

/-- Concrete camera with identity stored rotation and stored vector
(0, 1, 0): exercises the translation column of the world matrix. -/
def camUnitY : Camera :=
  { file_name := ("a.jpg"),
    calibration_mat := 1,
    rotation_mat := 1,
    translation_vec := ![0, 1, 0],
    radial_distortion := 0,
    width := none,
    height := none }

/-- The camera of the example scenario of the spec (section 8, property 8):
record img.jpg 1000.0 1 0 0 0 0 0 0 0.0 0, identity quaternion hence
identity rotation matrix, center at origin, focal length 1000. -/
def camSpecExample : Camera :=
  { file_name := ("img.jpg"),
    calibration_mat := Matrix.of ![![1000, 0, 0], ![0, 1000, 0], ![0, 0, 1]],
    rotation_mat := 1,
    translation_vec := ![0, 0, 0],
    radial_distortion := 0,
    width := none,
    height := none }

/-- The homogeneous 180-degree rotation about axis 0,
diag(1, -1, -1, 1). -/
def rot180AboutX4 : Matrix (Fin 4) (Fin 4) ℚ :=
  Matrix.of
    ![![1, 0, 0, 0], ![0, -1, 0, 0], ![0, 0, -1, 0], ![0, 0, 0, 1]]

/-- Concrete camera with identity rotation used to instantiate the rigid
transform guarantee. -/
def camRigidW : Camera :=
  { file_name := ("b.jpg"),
    calibration_mat := 1,
    rotation_mat := 1,
    translation_vec := ![1, 2, 3],
    radial_distortion := 0,
    width := none,
    height := none }

/-- Concrete camera with resolved 1000 x 1000 intrinsics and focal
length 1000. -/
def camFovW : Camera :=
  { file_name := ("c.jpg"),
    calibration_mat := Matrix.of ![![1000, 0, 0], ![0, 1000, 0], ![0, 0, 1]],
    rotation_mat := 1,
    translation_vec := ![0, 0, 0],
    radial_distortion := 0,
    width := some 1000,
    height := some 1000 }

/-- Concrete camera with resolved intrinsics and negative focal length
-1: the field-of-view code divides by -2 and returns ordinary negative
angles. -/
def camNegFocal : Camera :=
  { file_name := ("d.jpg"),
    calibration_mat := Matrix.of ![![-1, 0, 0], ![0, -1, 0], ![0, 0, 1]],
    rotation_mat := 1,
    translation_vec := ![0, 0, 0],
    radial_distortion := 0,
    width := some 2,
    height := some 2 }

/-- Concrete camera with width unresolved: the assert at
import_nvm_op.py line 152 fires. -/
def camNoWidth : Camera :=
  { file_name := ("e.jpg"),
    calibration_mat := 1,
    rotation_mat := 1,
    translation_vec := ![0, 0, 0],
    radial_distortion := 0,
    width := none,
    height := some 1 }

/-- Concrete token list whose header token is not an NVM_V3 signature. -/
def toksBadHeader : List NvmTok :=
  [NvmTok.str ("BUNDLE_FILE"), NvmTok.num 0]

/-- Concrete heap: a 3x3 matrix at reference 0, a 3-vector at
reference 1, junk elsewhere. -/
def storeW : Store :=
  fun n => if n = 0 then MVal.mat3 1 else
    if n = 1 then MVal.vec3 ![1, 2, 3] else MVal.vec3 ![0, 0, 0]

theorem flip_mat_eq_rot180 (m : Matrix (Fin 3) (Fin 3) ℚ) :
    invert_y_and_z_axis_mat m = rot180AboutX * m := by
  ext i j
  fin_cases i <;>
    simp [invert_y_and_z_axis_mat, negRow, rot180AboutX, Matrix.mul_apply,
      Fin.sum_univ_three]

theorem flip_vec_eq_rot180 (v : Fin 3 → ℚ) :
    invert_y_and_z_axis_vec v = rot180AboutX.mulVec v := by
  funext i
  fin_cases i <;>
    simp [invert_y_and_z_axis_vec, negComp, rot180AboutX, Matrix.mulVec,
      Matrix.dotProduct, Fin.sum_univ_three, Matrix.vecHead, Matrix.vecTail]

/-- Claim C3: for every 3x3 matrix and every 3-vector, the
vision-to-graphics axis flip that negates rows 1 and 2 equals
premultiplication by the 180-degree rotation about axis 0,
diag(1, -1, -1). -/
theorem c3_flip_is_rot180 :
    (∀ m : Matrix (Fin 3) (Fin 3) ℚ,
        invert_y_and_z_axis_mat m = rot180AboutX * m) ∧
    (∀ v : Fin 3 → ℚ,
        invert_y_and_z_axis_vec v = rot180AboutX.mulVec v) :=
  ⟨flip_mat_eq_rot180, flip_vec_eq_rot180⟩

/-- Claim C9: invert_y_and_z_axis is an involution on 3x3 matrices and on
3-vectors. -/
theorem c9_flip_involution :
    (∀ m : Matrix (Fin 3) (Fin 3) ℚ,
        invert_y_and_z_axis_mat (invert_y_and_z_axis_mat m) = m) ∧
    (∀ v : Fin 3 → ℚ,
        invert_y_and_z_axis_vec (invert_y_and_z_axis_vec v) = v) := by
  constructor
  · intro m
    ext i j
    by_cases h1 : (i : ℕ) = 1 <;> by_cases h2 : (i : ℕ) = 2 <;>
      simp [invert_y_and_z_axis_mat, negRow, h1, h2]
  · intro v
    funext i
    by_cases h1 : (i : ℕ) = 1 <;> by_cases h2 : (i : ℕ) = 2 <;>
      simp [invert_y_and_z_axis_vec, negComp, h1, h2]

theorem fin4v0 : ((0 : Fin 4) : ℕ) = 0 := rfl

theorem fin4v1 : ((1 : Fin 4) : ℕ) = 1 := rfl

theorem fin4v2 : ((2 : Fin 4) : ℕ) = 2 := rfl

theorem fin4v3 : ((3 : Fin 4) : ℕ) = 3 := rfl

theorem fin3mk2 (h : 2 < 3) : (⟨2, h⟩ : Fin 3) = 2 := rfl

theorem gw_upper_left (t : Fin 3 → ℚ) (r : Matrix (Fin 3) (Fin 3) ℚ) :
    upper_left_3x3 (get_world_matrix_from_translation_vec t r) = r.transpose := by
  ext i j
  fin_cases i <;> fin_cases j <;>
    simp [upper_left_3x3, get_world_matrix_from_translation_vec, setCol3,
      setRowCols, Matrix.transpose_apply, Matrix.one_apply]

theorem gw_col3 (t : Fin 3 → ℚ) (r : Matrix (Fin 3) (Fin 3) ℚ) (i : Fin 3) :
    get_world_matrix_from_translation_vec t r (Fin.castSucc i) 3 =
      -(r.transpose.mulVec t i) := by
  have hne : ((Fin.castSucc i : Fin 4) : ℕ) ≠ 3 := by
    show (i : ℕ) ≠ 3
    have := i.isLt
    omega
  have h3 : (3 : Fin 4) ≠ Fin.castSucc i := by
    intro h
    have hv : ((3 : Fin 4) : ℕ) = ((Fin.castSucc i : Fin 4) : ℕ) := congrArg Fin.val h
    have hv2 : 3 = (i : ℕ) := hv
    have := i.isLt
    omega
  simp [get_world_matrix_from_translation_vec, setCol3, setRowCols, to4d,
    Matrix.mulVec, Matrix.dotProduct, Fin.sum_univ_four, Fin.sum_univ_three,
    Matrix.transpose_apply, Matrix.one_apply, hne, h3, Fin.coe_castSucc,
    fin4v0, fin4v1, fin4v2, fin4v3, fin3mk2]
  intro h
  exact absurd h (by have := i.isLt; omega)

theorem gw_bottom (t : Fin 3 → ℚ) (r : Matrix (Fin 3) (Fin 3) ℚ) (j : Fin 4) :
    get_world_matrix_from_translation_vec t r 3 j = if j = 3 then 1 else 0 := by
  fin_cases j <;>
    simp [get_world_matrix_from_translation_vec, setCol3, setRowCols, to4d,
      Matrix.mulVec, Matrix.dotProduct, Fin.sum_univ_four,
      Matrix.transpose_apply, Matrix.one_apply,
      fin4v0, fin4v1, fin4v2, fin4v3, Fin.ext_iff]

theorem rot180_transpose : rot180AboutX.transpose = rot180AboutX := by
  ext i j
  fin_cases i <;> fin_cases j <;>
    simp [rot180AboutX, Matrix.transpose_apply, Matrix.vecHead, Matrix.vecTail]

theorem rot180_sq : rot180AboutX * rot180AboutX = 1 := by
  ext i j
  fin_cases i <;> fin_cases j <;>
    simp [rot180AboutX, Matrix.mul_apply, Fin.sum_univ_three, Matrix.one_apply,
      Matrix.vecHead, Matrix.vecTail]

theorem rot180_det : rot180AboutX.det = 1 := by
  rw [Matrix.det_fin_three]
  simp [rot180AboutX, Matrix.vecHead, Matrix.vecTail]

theorem flip_cancel_mulVec (r : Matrix (Fin 3) (Fin 3) ℚ) (t : Fin 3 → ℚ) :
    (invert_y_and_z_axis_mat r).transpose.mulVec (invert_y_and_z_axis_vec t) =
      r.transpose.mulVec t := by
  rw [flip_mat_eq_rot180, flip_vec_eq_rot180, Matrix.transpose_mul,
    rot180_transpose, Matrix.mulVec_mulVec, Matrix.mul_assoc, rot180_sq,
    Matrix.mul_one]

theorem world_matrix_upper_left (cam : Camera) :
    upper_left_3x3 cam.world_matrix =
      (invert_y_and_z_axis_mat cam.rotation_mat).transpose :=
  gw_upper_left _ _

theorem world_matrix_col3 (cam : Camera) (i : Fin 3) :
    cam.world_matrix (Fin.castSucc i) 3 = camera_position cam i := by
  have h := congrFun
    (flip_cancel_mulVec cam.rotation_mat cam.translation_vec) i
  show get_world_matrix_from_translation_vec
    (invert_y_and_z_axis_vec cam.translation_vec)
    (invert_y_and_z_axis_mat cam.rotation_mat) (Fin.castSucc i) 3 = _
  rw [gw_col3, h]
  rfl

theorem world_matrix_bottom (cam : Camera) (j : Fin 4) :
    cam.world_matrix 3 j = if j = 3 then 1 else 0 :=
  gw_bottom _ _ j

theorem world_matrix_camSpecExample :
    camSpecExample.world_matrix = rot180AboutX4 := by
  ext i j
  fin_cases i <;> fin_cases j <;>
    simp [camSpecExample, Camera.world_matrix, Camera.get_rotation_mat,
      Camera.get_translation_vec, get_world_matrix_from_translation_vec,
      invert_y_and_z_axis_mat, invert_y_and_z_axis_vec, negRow, negComp,
      setCol3, setRowCols, to4d, rot180AboutX4, Matrix.mulVec,
      Matrix.dotProduct, Fin.sum_univ_four, Matrix.transpose_apply,
      Matrix.one_apply, Matrix.vecHead, Matrix.vecTail,
      fin4v0, fin4v1, fin4v2, fin4v3]

/-- Claim C1 (counterexample): for the camera with identity stored
rotation and stored vector (0, 1, 0), the translation column entry at
row 1 of the produced world matrix is -1, while the axis-flipped
world-space camera position has 1 there: the translation column is not
the axis-flipped camera position. -/
theorem c1_counterexample :
    camUnitY.world_matrix (Fin.castSucc 1) 3 ≠
      invert_y_and_z_axis_vec (camera_position camUnitY) 1 := by
  rw [world_matrix_col3]
  have hcp : camera_position camUnitY 1 = -1 := by
    simp [camera_position, camUnitY, Matrix.mulVec, Matrix.dotProduct,
      Fin.sum_univ_three, Matrix.transpose_apply, Matrix.one_apply,
      Matrix.vecHead, Matrix.vecTail]
  rw [hcp]
  simp [invert_y_and_z_axis_vec, negComp, hcp]
  norm_num

/-- Claim C1 (amended): for every camera, the world matrix composed by
add_cameras has upper-left 3x3 block equal to the transpose of the
axis-flipped rotation matrix and bottom row (0,0,0,1); its translation
column, however, is the un-flipped world-space camera position
-R^T t: the axis flips applied to rotation and translation cancel
inside the translation column. -/
theorem c1_world_matrix_structure (cam : Camera) :
    (upper_left_3x3 cam.world_matrix =
      (invert_y_and_z_axis_mat cam.rotation_mat).transpose) ∧
    (∀ i : Fin 3, cam.world_matrix (Fin.castSucc i) 3 = camera_position cam i) ∧
    (∀ j : Fin 4, cam.world_matrix 3 j = if j = 3 then 1 else 0) :=
  ⟨world_matrix_upper_left cam, world_matrix_col3 cam, world_matrix_bottom cam⟩

/-- Claim C2 (counterexample): for the example camera of the spec (identity
rotation, center at origin, focal length 1000) the produced world matrix
is not the identity. -/
theorem c2_counterexample : camSpecExample.world_matrix ≠ 1 := by
  rw [world_matrix_camSpecExample]
  intro h
  have h11 := congrFun (congrFun h 1) 1
  simp [rot180AboutX4, Matrix.one_apply, Matrix.vecHead, Matrix.vecTail]
    at h11
  norm_num at h11

/-- Claim C2 (amended): for the example camera of the spec (identity rotation,
center at origin, focal length 1000) the world matrix obtained by
applying the axis flip to the rotation and position and then composing
the 4x4 transform equals the homogeneous 180-degree rotation about
axis 0, diag(1,-1,-1,1) - not the identity: the axis flip of the
identity rotation is diag(1,-1,-1), which survives into the upper-left
block. -/
theorem c2_world_matrix_is_axis_flip :
    camSpecExample.world_matrix = rot180AboutX4 :=
  world_matrix_camSpecExample

/-- Claim C4: for every camera whose stored rotation matrix is
orthonormal with determinant +1, the produced world matrix is a rigid
transform: its upper-left 3x3 block B satisfies B * B^T = 1 and
det B = 1, and its bottom row is (0,0,0,1). -/
theorem c4_world_matrix_rigid (cam : Camera)
    (hR : cam.rotation_mat * cam.rotation_mat.transpose = 1)
    (hdet : cam.rotation_mat.det = 1) :
    (upper_left_3x3 cam.world_matrix) *
        (upper_left_3x3 cam.world_matrix).transpose = 1 ∧
    (upper_left_3x3 cam.world_matrix).det = 1 ∧
    (∀ j : Fin 4, cam.world_matrix 3 j = if j = 3 then 1 else 0) := by
  have hB : upper_left_3x3 cam.world_matrix =
      cam.rotation_mat.transpose * rot180AboutX := by
    rw [world_matrix_upper_left, flip_mat_eq_rot180, Matrix.transpose_mul,
      rot180_transpose]
  refine ⟨?_, ?_, world_matrix_bottom cam⟩
  · rw [hB, Matrix.transpose_mul, rot180_transpose, Matrix.transpose_transpose,
      Matrix.mul_assoc]
    rw [← Matrix.mul_assoc rot180AboutX rot180AboutX cam.rotation_mat,
      rot180_sq, one_mul]
    exact Matrix.mul_eq_one_comm.mp hR
  · rw [hB, Matrix.det_mul, Matrix.det_transpose, hdet, rot180_det, mul_one]

/-- Witness for C4 at a concrete camera with identity rotation. -/
theorem c4_world_matrix_rigid_witness :
    (camRigidW.rotation_mat * camRigidW.rotation_mat.transpose = 1) ∧
    (camRigidW.rotation_mat.det = 1) ∧
    ((upper_left_3x3 camRigidW.world_matrix) *
        (upper_left_3x3 camRigidW.world_matrix).transpose = 1 ∧
      (upper_left_3x3 camRigidW.world_matrix).det = 1 ∧
      (∀ j : Fin 4, camRigidW.world_matrix 3 j = if j = 3 then 1 else 0)) :=
  ⟨by simp [camRigidW], by simp [camRigidW],
    c4_world_matrix_rigid camRigidW (by simp [camRigidW]) (by simp [camRigidW])⟩

/-- Claim C5: for every camera with resolved width and height and
positive focal length (read from calibration_mat[0][0] as the source
does), the computed field of view is
angle_x = 2 * atan(width / (2 * focal_length)) and
angle_y = 2 * atan(height / (2 * focal_length)). -/
theorem c5_field_of_view_formula (camera : Camera) (w h : ℚ)
    (hw : camera.width = some w) (hh : camera.height = some h)
    (hf : 0 < camera.focal_length) :
    field_of_view camera =
      Except.ok
        (2 * Real.arctan ((w : ℝ) / (2 * (camera.focal_length : ℝ))),
         2 * Real.arctan ((h : ℝ) / (2 * (camera.focal_length : ℝ)))) := by
  have hf0 : camera.calibration_mat 0 0 * 2 ≠ 0 :=
    mul_ne_zero (ne_of_gt hf) two_ne_zero
  have key : ∀ d : ℝ, fovAngle d (camera.focal_length : ℝ) =
      2 * Real.arctan (d / (2 * (camera.focal_length : ℝ))) := by
    intro d
    unfold fovAngle
    rw [mul_comm ((camera.focal_length : ℚ) : ℝ) 2, mul_comm]
  simp only [field_of_view, hw, hh, if_neg hf0]
  rw [show ((camera.calibration_mat 0 0 : ℚ) : ℝ) =
      ((camera.focal_length : ℚ) : ℝ) from rfl, key, key]

/-- Witness for C5 at a concrete camera with focal length 1000 and
resolved 1000 x 1000 intrinsics. -/
theorem c5_field_of_view_formula_witness :
    camFovW.width = some 1000 ∧ camFovW.height = some 1000 ∧
    0 < camFovW.focal_length ∧
    field_of_view camFovW =
      Except.ok
        (2 * Real.arctan (((1000 : ℚ) : ℝ) / (2 * (camFovW.focal_length : ℝ))),
         2 * Real.arctan (((1000 : ℚ) : ℝ) / (2 * (camFovW.focal_length : ℝ)))) :=
  ⟨rfl, rfl, by norm_num [Camera.focal_length, camFovW],
   c5_field_of_view_formula camFovW 1000 1000 rfl rfl
     (by norm_num [Camera.focal_length, camFovW])⟩

/-- Claim C6 (counterexample): the camera with resolved intrinsics and
focal length -1 has focal_length at most 0, yet the field-of-view
computation neither raises nor produces NaN: it returns the ordinary
(negative) angles (-pi/2, -pi/2). -/
theorem c6_counterexample :
    camNegFocal.focal_length ≤ 0 ∧
    field_of_view camNegFocal =
      Except.ok (-(Real.pi / 2), -(Real.pi / 2)) := by
  have hcal : camNegFocal.calibration_mat 0 0 = -1 := by
    simp [camNegFocal, Matrix.vecHead, Matrix.vecTail]
  constructor
  · rw [Camera.focal_length, hcal]
    norm_num
  · have hw : camNegFocal.width = some 2 := rfl
    have hh : camNegFocal.height = some 2 := rfl
    have hf0 : camNegFocal.calibration_mat 0 0 * 2 ≠ 0 := by
      rw [hcal]
      norm_num
    simp only [field_of_view, hw, hh, if_neg hf0, hcal]
    have harg : (((2 : ℚ) : ℝ)) / ((((-1 : ℚ)) : ℝ) * 2) = -1 := by norm_num
    unfold fovAngle
    rw [harg, show ((-1 : ℝ)) = -(1 : ℝ) from rfl, Real.arctan_neg,
      Real.arctan_one]
    norm_num
    ring

/-- Claim C6 (amended): the field-of-view computation fails with
AssertionError when width or height is unset and with ZeroDivisionError
when the focal length is exactly 0; for any nonzero focal length
(including negative ones) it returns ordinary angle values. -/
theorem c6_fov_failure_cases (camera : Camera) :
    ((camera.width = none ∨ camera.height = none) →
      field_of_view camera = Except.error FovFailure.assertionError) ∧
    (∀ w h : ℚ, camera.width = some w → camera.height = some h →
      camera.focal_length = 0 →
      field_of_view camera = Except.error FovFailure.zeroDivisionError) ∧
    (∀ w h : ℚ, camera.width = some w → camera.height = some h →
      camera.focal_length ≠ 0 →
      field_of_view camera =
        Except.ok (fovAngle (w : ℝ) ((camera.focal_length : ℚ) : ℝ),
                   fovAngle (h : ℝ) ((camera.focal_length : ℚ) : ℝ))) := by
  refine ⟨?_, ?_, ?_⟩
  · intro hcase
    rcases hcase with hw | hh
    · cases hh2 : camera.height <;> simp [field_of_view, hw, hh2]
    · cases hw2 : camera.width <;> simp [field_of_view, hw2, hh]
  · intro w h hw hh hf
    have hc : camera.calibration_mat 0 0 = 0 := hf
    simp [field_of_view, hw, hh, hc]
  · intro w h hw hh hf
    have hc : ¬(camera.calibration_mat 0 0 = 0) := hf
    simp [field_of_view, Camera.focal_length, hw, hh, hc]

/-- Witness for C6 at the concrete camera with unresolved width. -/
theorem c6_fov_failure_cases_witness :
    field_of_view camNoWidth = Except.error FovFailure.assertionError :=
  (c6_fov_failure_cases camNoWidth).1 (Or.inl rfl)

/-- Claim C7: the field-of-view angle computed by add_cameras is
strictly decreasing in the focal length for a fixed positive dimension,
and strictly increasing in the dimension for a fixed positive focal
length. -/
theorem c7_fov_monotonic :
    (∀ w f1 f2 : ℝ, 0 < w → 0 < f1 → f1 < f2 →
      fovAngle w f2 < fovAngle w f1) ∧
    (∀ w1 w2 f : ℝ, 0 < f → w1 < w2 →
      fovAngle w1 f < fovAngle w2 f) := by
  constructor
  · intro w f1 f2 hw h1 h12
    unfold fovAngle
    have harg : w / (f2 * 2) < w / (f1 * 2) :=
      (div_lt_div_iff_of_pos_left hw (by linarith) (by linarith)).mpr
        (by linarith)
    exact mul_lt_mul_of_pos_right (Real.arctan_strictMono harg) two_pos
  · intro w1 w2 f hf h12
    unfold fovAngle
    have harg : w1 / (f * 2) < w2 / (f * 2) :=
      (div_lt_div_iff_of_pos_right (by linarith)).mpr h12
    exact mul_lt_mul_of_pos_right (Real.arctan_strictMono harg) two_pos

/-- Witness for C7 at concrete dimensions and focal lengths. -/
theorem c7_fov_monotonic_witness :
    fovAngle 1 2 < fovAngle 1 1 ∧ fovAngle 1 1 < fovAngle 2 1 :=
  ⟨c7_fov_monotonic.1 1 1 2 one_pos one_pos one_lt_two,
   c7_fov_monotonic.2 1 2 1 one_pos one_lt_two⟩

/-- Claim C8: any token stream whose header token lacks the NVM
signature parses to a FormatError with no partial camera or point lists
(the parser returns either an error or both complete lists, never a
partial result). -/
theorem c8_bad_header (toks : List NvmTok)
    (h : has_nvm_signature toks = false) :
    parse_nvm_file toks = Except.error FormatError.badHeader ∧
    ∀ res : List Camera × List Point,
      parse_nvm_file toks ≠ Except.ok res := by
  have h1 : parse_nvm_file toks = Except.error FormatError.badHeader := by
    cases toks with
    | nil => rfl
    | cons hd tl =>
      cases hd with
      | num q => rfl
      | str s =>
        have hs : nvm_signature_chars.isPrefixOf s.data = false := by
          simpa [has_nvm_signature] using h
        simp [parse_nvm_file, hs]
  refine ⟨h1, ?_⟩
  intro res hres
  rw [h1] at hres
  exact Except.noConfusion hres

/-- Witness for C8 at a concrete token stream with a non-NVM header. -/
theorem c8_bad_header_witness :
    has_nvm_signature toksBadHeader = false ∧
    parse_nvm_file toksBadHeader = Except.error FormatError.badHeader :=
  ⟨by decide, (c8_bad_header toksBadHeader (by decide)).1⟩

theorem invert_heap_spec (s : Store) (next r0 : ℕ) (h0 : r0 < next) :
    (invert_y_and_z_axis_heap s next r0).1 r0 = s r0 ∧
    (invert_y_and_z_axis_heap s next r0).1
        (invert_y_and_z_axis_heap s next r0).2.1 =
      ((s r0).negItem 1).negItem 2 := by
  have hne : r0 ≠ next := by omega
  constructor <;> simp [invert_y_and_z_axis_heap, Store.set, hne]

theorem gw_heap_spec (s : Store) (next tRef rRef : ℕ)
    (R : Matrix (Fin 3) (Fin 3) ℚ) (t : Fin 3 → ℚ)
    (htr : tRef < next) (hrr : rRef < next)
    (hT : s tRef = MVal.vec3 t) (hR : s rRef = MVal.mat3 R) :
    (get_world_matrix_heap s next tRef rRef).1 tRef = s tRef ∧
    (get_world_matrix_heap s next tRef rRef).1 rRef = s rRef ∧
    (get_world_matrix_heap s next tRef rRef).1
        (get_world_matrix_heap s next tRef rRef).2.1 =
      MVal.mat4 (get_world_matrix_from_translation_vec t R) := by
  have e1 : tRef ≠ next := by omega
  have e2 : tRef ≠ next + 1 := by omega
  have e3 : tRef ≠ next + 2 := by omega
  have e4 : tRef ≠ next + 3 := by omega
  have e5 : rRef ≠ next := by omega
  have e6 : rRef ≠ next + 1 := by omega
  have e7 : rRef ≠ next + 2 := by omega
  have e8 : rRef ≠ next + 3 := by omega
  have d1 : next ≠ next + 1 := by omega
  have d2 : next ≠ next + 2 := by omega
  have d3 : next ≠ next + 3 := by omega
  have d4 : next + 1 ≠ next + 2 := by omega
  have d5 : next + 1 ≠ next + 3 := by omega
  have d6 : next + 2 ≠ next + 3 := by omega
  refine ⟨?_, ?_, ?_⟩
  · simp [get_world_matrix_heap, Store.set, e1, e2, e3, e4]
  · simp [get_world_matrix_heap, Store.set, e5, e6, e7, e8]
  · simp [get_world_matrix_heap, Store.set, e1, e2, e3, e4, e5, e6, e7, e8,
      d1, d2, d3, d4, d5, d6, hT, hR, MVal.asVec3, MVal.asVec4, MVal.asMat3,
      MVal.asMat4, get_world_matrix_from_translation_vec]

/-- Claim C10: invert_y_and_z_axis and
get_world_matrix_from_translation_vec leave their heap arguments
unchanged: each allocates and returns a fresh matrix or vector, the
input cells still hold their original values afterwards, and the
returned value agrees with the pure functions of the input values, so
reusing the same rotation across the flip and transpose steps is
alias-safe. -/
theorem c10_no_mutation (s : Store) (next ref vRef tRef rRef : ℕ)
    (M R : Matrix (Fin 3) (Fin 3) ℚ) (v t : Fin 3 → ℚ)
    (href : ref < next) (hvr : vRef < next) (htr : tRef < next)
    (hrr : rRef < next)
    (hM : s ref = MVal.mat3 M) (hV : s vRef = MVal.vec3 v)
    (hT : s tRef = MVal.vec3 t) (hR : s rRef = MVal.mat3 R) :
    ((invert_y_and_z_axis_heap s next ref).1 ref = s ref ∧
      (invert_y_and_z_axis_heap s next ref).1
          (invert_y_and_z_axis_heap s next ref).2.1 =
        MVal.mat3 (invert_y_and_z_axis_mat M)) ∧
    ((invert_y_and_z_axis_heap s next vRef).1 vRef = s vRef ∧
      (invert_y_and_z_axis_heap s next vRef).1
          (invert_y_and_z_axis_heap s next vRef).2.1 =
        MVal.vec3 (invert_y_and_z_axis_vec v)) ∧
    ((get_world_matrix_heap s next tRef rRef).1 tRef = s tRef ∧
      (get_world_matrix_heap s next tRef rRef).1 rRef = s rRef ∧
      (get_world_matrix_heap s next tRef rRef).1
          (get_world_matrix_heap s next tRef rRef).2.1 =
        MVal.mat4 (get_world_matrix_from_translation_vec t R)) := by
  refine ⟨⟨(invert_heap_spec s next ref href).1, ?_⟩,
    ⟨(invert_heap_spec s next vRef hvr).1, ?_⟩,
    gw_heap_spec s next tRef rRef R t htr hrr hT hR⟩
  · rw [(invert_heap_spec s next ref href).2, hM]
    simp [MVal.negItem, invert_y_and_z_axis_mat]
  · rw [(invert_heap_spec s next vRef hvr).2, hV]
    simp [MVal.negItem, invert_y_and_z_axis_vec]

/-- Witness for C10 at a concrete heap holding the identity matrix at
reference 0 and the vector (1,2,3) at reference 1. -/
theorem c10_no_mutation_witness :
    ((invert_y_and_z_axis_heap storeW 2 0).1 0 = storeW 0 ∧
      (invert_y_and_z_axis_heap storeW 2 0).1
          (invert_y_and_z_axis_heap storeW 2 0).2.1 =
        MVal.mat3 (invert_y_and_z_axis_mat 1)) ∧
    ((invert_y_and_z_axis_heap storeW 2 1).1 1 = storeW 1 ∧
      (invert_y_and_z_axis_heap storeW 2 1).1
          (invert_y_and_z_axis_heap storeW 2 1).2.1 =
        MVal.vec3 (invert_y_and_z_axis_vec ![1, 2, 3])) ∧
    ((get_world_matrix_heap storeW 2 1 0).1 1 = storeW 1 ∧
      (get_world_matrix_heap storeW 2 1 0).1 0 = storeW 0 ∧
      (get_world_matrix_heap storeW 2 1 0).1
          (get_world_matrix_heap storeW 2 1 0).2.1 =
        MVal.mat4 (get_world_matrix_from_translation_vec ![1, 2, 3] 1)) :=
  c10_no_mutation storeW 2 0 1 1 0 1 1 ![1, 2, 3] ![1, 2, 3]
    (by omega) (by omega) (by omega) (by omega) rfl rfl rfl rfl
